import Mathlib

set_option maxRecDepth 100000

/-!
Verification of hrsh7th/deno-json-rpc against its specification.

The development shallowly embeds the two layers of the library:

* the `VSCodeIO` frame codec of `src/msg.ts` (length-prefixed
  `Content-Length` framing over an untyped byte stream), and
* the `RPC` correlation engine of `src/rpc.ts` (handler registries,
  pending-request table, dispatch of incoming envelopes).

Bytes are modelled as `Nat` (values 0..255), byte buffers as `List Nat`,
JavaScript values reaching `JSON.stringify` as the inductive `JVal`, and a
`reader.read` stream as the list of chunks it delivers before end-of-stream.
-/

namespace DenoJsonRpc

/-- A byte (0..255). -/
abbrev Byte := Nat

/-- ASCII bytes of a string (all wire constants in the source are ASCII). -/
def asciiBytes (s : String) : List Byte := s.toList.map Char.toNat

/-- JavaScript `TypedArray.prototype.slice` index clamping:
negative indices count from the end, results clamped to `[0, len]`. -/
def jsClamp (len : Nat) (i : Int) : Nat :=
  if i < 0 then len - min len (-i).toNat else min i.toNat len

/-- `bytes.slice(a, b)` on a byte buffer. -/
def jsSlice2 (l : List Byte) (a b : Int) : List Byte :=
  (l.take (jsClamp l.length b)).drop (jsClamp l.length a)

/-- `bytes.slice(a)` on a byte buffer (to the end). -/
def jsSlice1 (l : List Byte) (a : Int) : List Byte :=
  l.drop (jsClamp l.length a)

/-- `bytes.indexOf(b)`: first index of byte `b`, or `-1`. -/
def jsIndexOf (l : List Byte) (b : Byte) : Int :=
  match l.findIdx? (· == b) with
  | some i => (i : Int)
  | none => -1

/-- `bytes[i]` as the source compares it against a byte constant:
an out-of-range access yields `undefined`, which is unequal to every
byte value; we model it by the sentinel 256. -/
def jsAt (l : List Byte) (i : Nat) : Nat := l.getD i 256

/-- The bytes appended to the accumulation buffer by one loop iteration of
`VSCodeIO.read`.  The source allocates `read = new Uint8Array(1024)`, lets
`reader.read(read)` fill its first `total` bytes, and then runs
`Deno.writeAll(this.reading, read)` — appending the whole 1024-byte array,
zero padding included, instead of `read.subarray(0, total)`. -/
def pad1024 (c : List Byte) : List Byte :=
  c ++ List.replicate (1024 - c.length) 0

/-- Lower-casing of an ASCII byte, for the case-insensitive header match. -/
def lowerByte (b : Byte) : Byte :=
  if 65 ≤ b ∧ b ≤ 90 then b + 32 else b

/-- `\s` on ASCII input (space, tab, line feed, carriage return,
vertical tab, form feed). -/
def isWsByte (b : Byte) : Bool :=
  b == 32 || b == 9 || b == 10 || b == 13 || b == 11 || b == 12

/-- `\d`. -/
def isDigitByte (b : Byte) : Bool :=
  48 ≤ b && b ≤ 57

/-- `parseInt` of a nonempty ASCII digit string, base 10. -/
def digitsVal (ds : List Byte) : Nat :=
  ds.foldl (fun a d => a * 10 + (d - 48)) 0

/-- Try to match the regular expression `content-length:\s*(\d+)` (flag `i`)
at the head of the buffer; on success return the captured number. -/
def matchCLHere (l : List Byte) : Option Nat :=
  let pat := asciiBytes "content-length:"
  if (l.take pat.length).map lowerByte = pat then
    let ds := ((l.drop pat.length).dropWhile isWsByte).takeWhile isDigitByte
    if ds.isEmpty then none else some (digitsVal ds)
  else none

/-- `header.match(/content-length:\s*(\d+)/i)`: first position (left to
right) where the pattern matches, returning the parsed capture. -/
def findCL : List Byte → Option Nat
  | [] => none
  | b :: bs =>
    match matchCLHere (b :: bs) with
    | some n => some n
    | none => findCL bs

/-- `VSCodeIO.write` (src/msg.ts): the frame put on the wire for a message
body, `"Content-Length: " + byteLength + "\r\n\r\n" + body`. -/
def vsWriteFrame (body : List Byte) : List Byte :=
  asciiBytes "Content-Length: " ++ asciiBytes (toString body.length) ++
    [13, 10, 13, 10] ++ body

/-- The `bytes.byteLength >= headerLength + messageLength` step of
`VSCodeIO.read`: when the buffer is long enough, slice out
`bytes.slice(headerLength, headerLength + messageLength)` as the message and
keep `bytes.slice(headerLength + messageLength)` as the new accumulation
buffer. -/
def vsBodyCheck (reading : List Byte) (h ml : Int) :
    Option (List Byte × List Byte) :=
  if (reading.length : Int) ≥ h + ml then
    some (jsSlice2 reading h (h + ml), jsSlice1 reading (h + ml))
  else none

/-- The `while (true)` loop of `VSCodeIO.read` (src/msg.ts).  Arguments:
the chunks the reader will deliver (end-of-stream afterwards), the current
accumulation buffer `this.reading`, and the loop-carried `headerLength` and
`messageLength` variables (both start at `-1` per call).  Returns the
message (or `none` on end-of-stream / zero-length read), the chunks left
unread, and the accumulation buffer for the next call. -/
def vsReadGo : List (List Byte) → List Byte → Int → Int →
    Option (List Byte) × List (List Byte) × List Byte
  | [], reading, _, _ => (none, [], reading)
  | c :: cs, reading, hl, ml =>
    if c.length = 0 then (none, cs, reading)
    else
      let reading2 := reading ++ pad1024 c
      if hl = -1 then
        let index := jsIndexOf reading2 13
        if index = -1 ∨ jsAt reading2 (index.toNat + 1) ≠ 10 ∨
            jsAt reading2 (index.toNat + 2) ≠ 13 ∨
            jsAt reading2 (index.toNat + 3) ≠ 10 then
          vsReadGo cs reading2 (-1) ml
        else
          let h : Int := index + 4
          let ml2 : Int :=
            match findCL (jsSlice2 reading2 0 h) with
            | some n => (n : Int)
            | none => ml
          match vsBodyCheck reading2 h ml2 with
          | some (body, rest) => (some body, cs, rest)
          | none => vsReadGo cs reading2 h ml2
      else
        match vsBodyCheck reading2 hl ml with
        | some (body, rest) => (some body, cs, rest)
        | none => vsReadGo cs reading2 hl ml

/-- One call of `VSCodeIO.read`: `headerLength` and `messageLength` are
initialised to `-1`. -/
def vsRead (chunks : List (List Byte)) (reading : List Byte) :
    Option (List Byte) × List (List Byte) × List Byte :=
  vsReadGo chunks reading (-1) (-1)

/-- Successive `VSCodeIO.read` calls (at most `fuel` of them), collecting
the decoded message bodies in order until a call yields no message. -/
def vsReadAll : Nat → List (List Byte) → List Byte → List (List Byte)
  | 0, _, _ => []
  | fuel + 1, chunks, reading =>
    match vsRead chunks reading with
    | (some body, chunks2, reading2) => body :: vsReadAll fuel chunks2 reading2
    | (none, _, _) => []

/-! ## JavaScript values and `JSON.stringify` -/

/-- A JavaScript value as it reaches `JSON.stringify` in the source:
JSON data plus `undefined` (which `JSON.stringify` drops from objects and
turns into `null` inside arrays). -/
inductive JVal where
  | null
  | undefined
  | num (n : Int)
  | str (s : String)
  | bool (b : Bool)
  | arr (xs : List JVal)
  | obj (fields : List (String × JVal))

mutual

/-- Structural boolean equality on `JVal`. -/
def jbeq : JVal → JVal → Bool
  | .null, .null => true
  | .undefined, .undefined => true
  | .num a, .num b => a == b
  | .str a, .str b => a == b
  | .bool a, .bool b => a == b
  | .arr a, .arr b => jbeqArr a b
  | .obj a, .obj b => jbeqFields a b
  | _, _ => false

def jbeqArr : List JVal → List JVal → Bool
  | [], [] => true
  | a :: as_, b :: bs => jbeq a b && jbeqArr as_ bs
  | _, _ => false

def jbeqFields : List (String × JVal) → List (String × JVal) → Bool
  | [], [] => true
  | (k, a) :: as_, (l, b) :: bs => k == l && jbeq a b && jbeqFields as_ bs
  | _, _ => false

end

mutual

/-- The value shape `JSON.stringify` serialises: object fields whose value
is `undefined` are dropped, `undefined` array elements become `null`. -/
def jsonNorm : JVal → JVal
  | .obj fs => .obj (jsonNormFields fs)
  | .arr xs => .arr (jsonNormArr xs)
  | v => v

def jsonNormFields : List (String × JVal) → List (String × JVal)
  | [] => []
  | (k, v) :: fs =>
    match v with
    | .undefined => jsonNormFields fs
    | v => (k, jsonNorm v) :: jsonNormFields fs

def jsonNormArr : List JVal → List JVal
  | [] => []
  | v :: vs =>
    (match v with
     | .undefined => JVal.null
     | v => jsonNorm v) :: jsonNormArr vs

end

/-- JavaScript property read `v[k]`:
reading a property of `null`/`undefined` throws a TypeError (`none` here);
on any other non-object value the property is `undefined`. -/
def getProp : JVal → String → Option JVal
  | .null, _ => none
  | .undefined, _ => none
  | .obj fs, k => some ((fs.lookup k).getD .undefined)
  | _, _ => some .undefined

/-- JavaScript truthiness (`NaN` is not modelled). -/
def truthy : JVal → Bool
  | .null => false
  | .undefined => false
  | .bool b => b
  | .num n => n != 0
  | .str s => s != ""
  | .arr _ => true
  | .obj _ => true

/-- JavaScript `a || b`. -/
def jsOr (a b : JVal) : JVal := if truthy a then a else b

/-- Field projection on an already-serialised envelope. -/
def objGet : JVal → String → Option JVal
  | .obj fs, k => fs.lookup k
  | _, _ => none

/-- The `data` field of the `error` member of a serialised reply envelope. -/
def errDataOf (j : JVal) : Option JVal :=
  (objGet j "error").bind (fun e => objGet e "data")

/-! ## Handler failure payloads and the catch branches -/

/-- What a request handler can throw or reject with: either an `Error`
instance (with its `message` and, when set, `stack`) or any other
JavaScript value. -/
inductive Payload where
  | jsError (message : String) (stack : Option String)
  | val (v : JVal)

/-- `JSON.stringify`'s view of a payload when it is embedded directly
(`data: e` in the part_001 variant): `Error` instances serialise as `{}`
because `message` and `stack` are non-enumerable own properties. -/
def payloadJson : Payload → JVal
  | .jsError _ _ => .obj []
  | .val v => v

/-- `(e.stack || '').split("\n")` as a JSON array of strings. -/
def stackLines (stack : Option String) : JVal :=
  .arr (((stack.getD "").splitOn "\n").map .str)

/-- The `catch (e)` branch of `RPC.onMessage` in `src/src/rpc.ts`
(lines 281–305): `Error` instances are summarised as
`{message, stack-lines}`; any other payload is chained through
`e.code || -32603`, `e.message || "Internal error"`, `e.data || undefined`.
Returns the object handed to `JSON.stringify`, or `none` when the branch
itself throws (property access on a `null`/`undefined` payload). -/
def catchReplySrc (idv : JVal) : Payload → Option JVal
  | .jsError msg stack =>
    some (.obj [("id", idv),
      ("error", .obj [("code", .num (-32603)),
        ("message", .str "Internal error"),
        ("data", .obj [("message", .str msg),
          ("stack", stackLines stack)])])])
  | .val v =>
    match getProp v "code", getProp v "message", getProp v "data" with
    | some c, some m, some d =>
      some (.obj [("id", idv),
        ("error", .obj [("code", jsOr c (.num (-32603))),
          ("message", jsOr m (.str "Internal error")),
          ("data", jsOr d .undefined)])])
    | _, _, _ => none

/-- The `catch (e)` branch of `RPC.onMessage` in the `src/unnamed/part_001`
variant (lines 271–280): always
`{id, error: {code: -32603, message: "Internal error", data: e}}`. -/
def catchReply001 (idv : JVal) (e : Payload) : JVal :=
  .obj [("id", idv),
    ("error", .obj [("code", .num (-32603)),
      ("message", .str "Internal error"),
      ("data", payloadJson e)])]

/-- The serialised error reply the `src/src/rpc.ts` variant writes for a
failing handler (`none` when no reply is written). -/
def sentCatchSrc (idv : JVal) (e : Payload) : Option JVal :=
  (catchReplySrc idv e).map jsonNorm

/-- The serialised error reply the `src/unnamed/part_001` variant writes
for a failing handler. -/
def sentCatch001 (idv : JVal) (e : Payload) : JVal :=
  jsonNorm (catchReply001 idv e)

/-! ## The RPC correlation engine -/

/-- A request handler as stored in `incomingRequestHandlers`: the awaited
outcome of `callback(params)` is a result or a thrown/rejected payload. -/
def Handler : Type := JVal → Except Payload JVal

/-- A notification handler (return value discarded). -/
def NHandler : Type := JVal → Unit

/-- An incoming envelope after `JSON.parse`: field presence (for the
`"x" in message` tests) is `Option`; `params` is read as `message.params`,
which is `undefined` when absent. -/
structure Envelope where
  idF : Option JVal
  methodF : Option String
  paramsF : JVal
  resultF : Option JVal
  errorF : Option JVal

/-- The observable effects of one dispatch step.  `invokeInherited`
records that the truthy member a `{}`-based registry inherits from
`Object.prototype` was called in place of a handler. -/
inductive Action where
  | write (j : JVal)
  | resolve (id : Int) (v : JVal)
  | reject (id : Int) (v : JVal)
  | invokeRequest (m : String) (params : JVal)
  | invokeNotification (m : String) (params : JVal)
  | invokeInherited (m : String) (params : JVal)

/-- The property names every plain `{}` object inherits from
`Object.prototype` (the legacy accessor `__proto__` included): for these
names `registry[m]` is truthy even when nothing was registered, so the
source's `!registry[m]` not-found test fails. -/
def objectProtoKeys : List String :=
  ["constructor", "hasOwnProperty", "isPrototypeOf", "propertyIsEnumerable",
   "toLocaleString", "toString", "valueOf", "__defineGetter__",
   "__defineSetter__", "__lookupGetter__", "__lookupSetter__", "__proto__"]

/-- Result of the property read `registry[m]` on a `{}`-based handler
registry: a registered own handler (which shadows the prototype), a truthy
member inherited from `Object.prototype`, or `undefined`. -/
inductive RegRead (α : Type) where
  | own (h : α)
  | inherited (name : String)
  | missing

/-- The property read `registry[m]` as the source's registries perform it:
own properties first, then the `Object.prototype` chain. -/
def regRead {α : Type} (reg : List (String × α)) (m : String) : RegRead α :=
  match reg.lookup m with
  | some h => RegRead.own h
  | none =>
    if m ∈ objectProtoKeys then RegRead.inherited m else RegRead.missing

/-- The mutable state of one `RPC` instance. `requests` models the key set
of the `Map<number, {resolve, reject}>` pending table. -/
structure RPCState where
  requestId : Nat
  requests : List Int
  running : Bool
  reqHandlers : List (String × Handler)
  notifHandlers : List (String × NHandler)

/-- `RPC.onMessage` of `src/src/rpc.ts` (lines 260–322) as a pure dispatch
step: given the parsed envelope, produce the emitted actions (writes are
`jsonNorm`-serialised as `JSON.stringify` would) and the next state.

The registries are plain `{}` objects, so the truthiness tests
`!this.incomingRequestHandlers[message.method]` and
`this.incomingNotificationHandlers[message.method]` see the
`Object.prototype` chain: for an unregistered method named after an
inherited member the not-found branch is skipped and the inherited member
is called in place of a handler.  For `toString` (and `toLocaleString`,
which delegates to it) that call deterministically returns
`"[object Object]"`, which the source then sends as the success reply
`{id, result}`; the replies of the remaining inherited members are
member-specific (booleans from `hasOwnProperty`, the boxed params from
`constructor`, engine-specific TypeErrors from the legacy accessors) — no
claim depends on them and the model records only the `invokeInherited`
action for those names. -/
def onMessageSrc (st : RPCState) (m : Envelope) : List Action × RPCState :=
  match m.idF with
  | some idv =>
    match m.methodF with
    | some meth =>
      match regRead st.reqHandlers meth with
      | .missing =>
        ([Action.write (jsonNorm (JVal.obj [("id", idv),
          ("error", JVal.obj [("code", JVal.num (-32601)),
            ("message", JVal.str "Method not found")])]))], st)
      | .inherited name =>
        if name = "toString" ∨ name = "toLocaleString" then
          ([Action.invokeInherited name m.paramsF,
            Action.write (jsonNorm (JVal.obj [("id", idv),
              ("result", JVal.str "[object Object]")]))], st)
        else
          ([Action.invokeInherited name m.paramsF], st)
      | .own h =>
        match h m.paramsF with
        | .ok r =>
          ([Action.invokeRequest meth m.paramsF,
            Action.write (jsonNorm (JVal.obj
              [("id", idv), ("result", r)]))], st)
        | .error e =>
          match sentCatchSrc idv e with
          | some j => ([Action.invokeRequest meth m.paramsF,
              Action.write j], st)
          | none => ([Action.invokeRequest meth m.paramsF], st)
    | none =>
      match idv with
      | JVal.num i =>
        if i ∈ st.requests then
          ((match m.errorF with
            | some ev => [Action.reject i ev]
            | none => [Action.resolve i (m.resultF.getD JVal.undefined)]),
           { st with requests := st.requests.erase i })
        else ([], st)
      | _ => ([], st)
  | none =>
    match m.methodF with
    | some meth =>
      match regRead st.notifHandlers meth with
      | .own _ => ([Action.invokeNotification meth m.paramsF], st)
      | .inherited name => ([Action.invokeInherited name m.paramsF], st)
      | .missing => ([], st)
    | none => ([], st)

/-- `RPC.onRequest` (lines 229–241): a second registration for an already
claimed method throws (the thrown `Error` is modelled by `Except.error ()`)
and mutates nothing; otherwise the handler is stored. -/
def onRequest (st : RPCState) (meth : String) (cb : Handler) :
    Except Unit RPCState :=
  if (st.reqHandlers.lookup meth).isSome then .error ()
  else .ok { st with reqHandlers := st.reqHandlers ++ [(meth, cb)] }

/-- `RPC.onNotification` (lines 246–255), same uniqueness rule. -/
def onNotification (st : RPCState) (meth : String) (cb : NHandler) :
    Except Unit RPCState :=
  if (st.notifHandlers.lookup meth).isSome then .error ()
  else .ok { st with notifHandlers := st.notifHandlers ++ [(meth, cb)] }

/-- `RPC.stop` (lines 191–193): `this.running = false`, and nothing else —
in particular no pending promise is resolved or rejected, so the action
list is empty. -/
def stop (st : RPCState) : List Action × RPCState :=
  ([], { st with running := false })

/-- Outcome of one iteration of the `while (true)` loop in `RPC.start`. -/
inductive LoopOutcome where
  | exit
  | again (dispatched : Option Envelope)

/-- One iteration of the `start()` loop of `src/src/rpc.ts`
(lines 173–186): first `await this.io.read()` yields `r` (`none` models
end-of-stream, where `read` resolves with no message); then the loop
breaks only if `running` is false; otherwise a truthy message is
dispatched and the loop continues. -/
def startIterSrc (running : Bool) (r : Option Envelope) : LoopOutcome :=
  if running = false then .exit
  else .again r

/-- Running the `start()` loop for `n` iterations against a stream that
reports end-of-input on every read, with `stop()` never called: `true`
iff the loop has exited within those iterations. -/
def loopExitsOnEOF : Nat → Bool
  | 0 => false
  | n + 1 =>
    match startIterSrc true none with
    | .exit => true
    | .again _ => loopExitsOnEOF n

/-! ## Shared concrete instances and helper lemmas -/

/-- The frame `VSCodeIO.write` produces for the one-byte body `"A"`:
`"Content-Length: 1\r\n\r\nA"`. -/
def frameA : List Byte := vsWriteFrame [65]

/-- A header block with a terminating `\r\n\r\n` but no `Content-Length`
field. -/
def noLengthHeader : List Byte := asciiBytes "X: 1" ++ [13, 10, 13, 10]

/-- A handler that rethrows its params as the failure payload, as in the
repository test `rpc_test.ts` "request failure". -/
def throwingHandler : Handler := fun p => .error (.val p)

/-- An identity handler. -/
def okHandler : Handler := fun v => .ok v

/-- Another request handler, used as the rejected second registration. -/
def altHandler : Handler := fun _ => .ok JVal.null

/-- A notification handler. -/
def sinkNHandler : NHandler := fun _ => ()

/-- Another notification handler. -/
def altNHandler : NHandler := fun _ => ()

/-- A freshly constructed peer: nothing registered, nothing pending. -/
def emptySt : RPCState := ⟨0, [], false, [], []⟩

/-- A peer with a throwing handler registered for `"test"`. -/
def failSt : RPCState := ⟨0, [], true, [("test", throwingHandler)], []⟩

/-- The incoming request `{id: 0, method: "test", params: 1}`. -/
def failEnv : Envelope := ⟨some (.num 0), some "test", .num 1, none, none⟩

/-- Looking up a key just appended to a registry that did not contain it. -/
theorem lookup_append_self {β : Type} (l : List (String × β)) (k : String)
    (v : β) (h : l.lookup k = none) : (l ++ [(k, v)]).lookup k = some v := by
  induction l with
  | nil => simp [List.lookup]
  | cons a t ih =>
    obtain ⟨ka, va⟩ := a
    by_cases hk : (k == ka) = true
    · simp [List.lookup, hk] at h
    · simp only [List.lookup, List.cons_append, hk] at h ⊢
      exact ih h

/-- Sanity: the repository test `msg_test.ts` "read" — a whole frame
delivered in one chunk decodes to its body, with the zero padding of the
1024-byte scratch array left in the residual buffer. -/
theorem vsRead_single_frame :
    vsRead [frameA] [] = (some [65], [], List.replicate 1002 0) := by
  rfl

/-! ## The claims -/

/-- Claim C1 (code_bug): the spec's framing idempotence fails on the code.
`VSCodeIO.read` appends the whole 1024-byte scratch array (ignoring
`total`) and always awaits a fresh chunk before examining the residual
buffer, so decoding does not reproduce the bodies for every chunk split:
two frames for body `"A"` pipelined back-to-back in one chunk yield only
the first body across successive reads, and the same single frame split
into two chunks (after byte 19, inside the `\r\n\r\n` delimiter) yields no
body at all, because the interleaved zero padding prevents the delimiter
from ever appearing contiguously. -/
theorem framing_roundtrip_fails_on_chunk_splits :
    vsReadAll 2 [frameA ++ frameA] [] = [[65]] ∧
    vsReadAll 2 [frameA.take 19, frameA.drop 19] [] = [] :=
  ⟨rfl, rfl⟩

/-- Claim C3 (code_bug): on a header block lacking a parseable
`Content-Length`, `VSCodeIO.read` does not fail — `messageLength` keeps
its `-1` sentinel, the guard `byteLength >= headerLength + messageLength`
passes, and the call returns the empty body sliced by
`slice(headerLength, headerLength - 1)`, leaving a residual buffer that
still holds the last header byte (10, `\n`) followed by the zero padding. -/
theorem read_returns_body_without_content_length :
    (vsRead [noLengthHeader] []).1 = some [] ∧
    (vsRead [noLengthHeader] []).2.2 = 10 :: List.replicate 1016 0 :=
  ⟨rfl, rfl⟩

/-- Claim C2 (code_bug): a handler failing with the primitive payload `1`
does not produce `{id, error: {code: -32603, message: "Internal error",
data: 1}}` — the `src/src/rpc.ts` catch branch sends the reply without any
`data` field (`e.data || undefined` is `undefined` and is dropped by
`JSON.stringify`), contradicting the repository test expecting `data: 1`. -/
theorem handler_failure_drops_primitive_payload :
    onMessageSrc failSt failEnv =
      ([Action.invokeRequest "test" (JVal.num 1),
        Action.write (JVal.obj [("id", JVal.num 0),
          ("error", JVal.obj [("code", JVal.num (-32603)),
            ("message", JVal.str "Internal error")])])], failSt) ∧
    (sentCatchSrc (JVal.num 0) (Payload.val (JVal.num 1))).map errDataOf =
      some none ∧
    jbeq (JVal.obj [("id", JVal.num 0),
        ("error", JVal.obj [("code", JVal.num (-32603)),
          ("message", JVal.str "Internal error")])])
      (JVal.obj [("id", JVal.num 0),
        ("error", JVal.obj [("code", JVal.num (-32603)),
          ("message", JVal.str "Internal error"),
          ("data", JVal.num 1)])]) = false :=
  ⟨rfl, rfl, rfl⟩

/-- Counterexample for C4: the request `{id: 7, method: "toString",
params: 1}` against a peer with no registered handlers does not get the
Method-not-found reply — the truthy inherited `Object.prototype.toString`
defeats the `!handlers[message.method]` test, the inherited member is
invoked in place of a handler, and the peer replies
`{id: 7, result: "[object Object]"}`. -/
theorem method_not_found_fails_on_toString :
    onMessageSrc emptySt
        ⟨some (.num 7), some "toString", .num 1, none, none⟩ =
      ([Action.invokeInherited "toString" (JVal.num 1),
        Action.write (JVal.obj [("id", JVal.num 7),
          ("result", JVal.str "[object Object]")])], emptySt) ∧
    (onMessageSrc emptySt
        ⟨some (.num 7), some "toString", .num 1, none, none⟩).1 ≠
      [Action.write (jsonNorm (JVal.obj [("id", JVal.num 7),
        ("error", JVal.obj [("code", JVal.num (-32601)),
          ("message", JVal.str "Method not found")])]))] := by
  refine ⟨rfl, fun h => ?_⟩
  have h2 : (2 : Nat) = 1 := congrArg List.length h
  exact absurd h2 (by decide)

/-- Claim C4 (corrected): an incoming envelope with an `id` and a `method`
whose method has no registered request handler — and whose method name is
not one of the properties a `{}` registry inherits from
`Object.prototype` — is answered with exactly
`{id, error: {code: -32601, message: "Method not found"}}`, echoing the
incoming id; no handler is invoked and the state is unchanged.  (For the
inherited names the source instead invokes the inherited member, see the
counterexample.) -/
theorem method_not_found_reply (st : RPCState) (m : Envelope) (idv : JVal)
    (meth : String) (hid : m.idF = some idv) (hmeth : m.methodF = some meth)
    (hnone : st.reqHandlers.lookup meth = none)
    (hproto : meth ∉ objectProtoKeys) :
    onMessageSrc st m =
      ([Action.write (jsonNorm (JVal.obj [("id", idv),
        ("error", JVal.obj [("code", JVal.num (-32601)),
          ("message", JVal.str "Method not found")])]))], st) := by
  simp only [onMessageSrc, hid, hmeth, regRead, hnone]
  simp [hproto]

/-- Witness for C4 at a fresh peer and the request
`{id: 7, method: "nope"}`. -/
theorem method_not_found_reply_witness :
    onMessageSrc emptySt ⟨some (.num 7), some "nope", .undefined, none, none⟩ =
      ([Action.write (jsonNorm (JVal.obj [("id", JVal.num 7),
        ("error", JVal.obj [("code", JVal.num (-32601)),
          ("message", JVal.str "Method not found")])]))], emptySt) :=
  method_not_found_reply emptySt _ (JVal.num 7) "nope" rfl rfl rfl (by decide)

/-- Claim C5 (confirmed): an envelope with an `id` and no `method` is a
response.  If the id matches a pending request, the promise is rejected
with the envelope's `error` value when an `error` field is present and
resolved with its `result` value otherwise, and the entry is removed from
the pending table in the same dispatch step; if no pending request
matches, the envelope is discarded silently with no action and no state
change. -/
theorem response_dispatch (st : RPCState) (m : Envelope) (i : Int)
    (hid : m.idF = some (JVal.num i)) (hmeth : m.methodF = none) :
    (i ∈ st.requests →
      onMessageSrc st m =
        ((match m.errorF with
          | some ev => [Action.reject i ev]
          | none => [Action.resolve i (m.resultF.getD JVal.undefined)]),
         { st with requests := st.requests.erase i })) ∧
    (i ∉ st.requests → onMessageSrc st m = ([], st)) := by
  constructor <;> intro h <;> simp [onMessageSrc, hid, hmeth, h]

/-- Witness for C5: pending table `[4, 5]`, response
`{id: 4, error: "bad"}` — rejected with `"bad"`, entry 4 removed. -/
theorem response_dispatch_witness :
    onMessageSrc ⟨3, [4, 5], true, [], []⟩
        ⟨some (.num 4), none, .undefined, none, some (.str "bad")⟩ =
      ([Action.reject 4 (JVal.str "bad")], ⟨3, [5], true, [], []⟩) :=
  (response_dispatch ⟨3, [4, 5], true, [], []⟩ _ 4 rfl rfl).1 (by decide)

/-- Claim C10 (confirmed): for a response matching a pending request,
rejection is decided solely by the presence of the `error` key —
`error: null` rejects with `null` — and with no `error` key the promise is
resolved with the `result` value, `undefined` when that field is absent. -/
theorem response_error_key_presence (st : RPCState) (m : Envelope) (i : Int)
    (hid : m.idF = some (JVal.num i)) (hmeth : m.methodF = none)
    (hmem : i ∈ st.requests) :
    (onMessageSrc st m).1 =
      match m.errorF with
      | some ev => [Action.reject i ev]
      | none => [Action.resolve i (m.resultF.getD JVal.undefined)] := by
  simp [onMessageSrc, hid, hmeth, hmem]

/-- Witness for C10: `{id: 2, result: 9, error: null}` — the mere presence
of the `error` key rejects with `null`, the `result` value notwithstanding. -/
theorem response_error_key_presence_witness :
    (onMessageSrc ⟨0, [2], true, [], []⟩
      ⟨some (.num 2), none, .undefined, some (.num 9), some .null⟩).1 =
      [Action.reject 2 JVal.null] :=
  response_error_key_presence ⟨0, [2], true, [], []⟩ _ 2 rfl rfl (by decide)

/-- Claim C6 (confirmed): after a first handler is registered for a method
in either registry, a second registration for the same method in that
registry fails synchronously and the registry still maps the method to the
first handler. -/
theorem duplicate_registration_rejected (st st1 st2 : RPCState)
    (meth : String) (h1 h2 : Handler) (n1 n2 : NHandler)
    (hr : onRequest st meth h1 = .ok st1)
    (hn : onNotification st meth n1 = .ok st2) :
    onRequest st1 meth h2 = .error () ∧
    st1.reqHandlers.lookup meth = some h1 ∧
    onNotification st2 meth n2 = .error () ∧
    st2.notifHandlers.lookup meth = some n1 := by
  have hreq : st1.reqHandlers.lookup meth = some h1 := by
    unfold onRequest at hr
    split at hr
    · exact absurd hr (by simp)
    · rename_i hcond
      have hnone : st.reqHandlers.lookup meth = none :=
        Option.not_isSome_iff_eq_none.mp hcond
      have hst1 := (Except.ok.inj hr).symm
      rw [hst1]
      exact lookup_append_self _ _ _ hnone
  have hnot : st2.notifHandlers.lookup meth = some n1 := by
    unfold onNotification at hn
    split at hn
    · exact absurd hn (by simp)
    · rename_i hcond
      have hnone : st.notifHandlers.lookup meth = none :=
        Option.not_isSome_iff_eq_none.mp hcond
      have hst2 := (Except.ok.inj hn).symm
      rw [hst2]
      exact lookup_append_self _ _ _ hnone
  refine ⟨?_, hreq, ?_, hnot⟩
  · simp [onRequest, hreq]
  · simp [onNotification, hnot]

/-- Witness for C6: registering `okHandler` (resp. `sinkNHandler`) for
`"m"` on a fresh peer, then attempting a second registration. -/
theorem duplicate_registration_rejected_witness :
    onRequest ⟨0, [], false, [("m", okHandler)], []⟩ "m" altHandler =
      .error () ∧
    (RPCState.reqHandlers ⟨0, [], false, [("m", okHandler)], []⟩).lookup "m" =
      some okHandler ∧
    onNotification ⟨0, [], false, [], [("m", sinkNHandler)]⟩ "m" altNHandler =
      .error () ∧
    (RPCState.notifHandlers
      ⟨0, [], false, [], [("m", sinkNHandler)]⟩).lookup "m" =
      some sinkNHandler :=
  duplicate_registration_rejected emptySt _ _ "m" okHandler altHandler
    sinkNHandler altNHandler rfl rfl

/-- Claim C7 (confirmed): `stop()` only clears the running flag — the
pending table, the request-id counter and both registries are untouched,
and no pending promise is resolved or rejected (the action list is empty). -/
theorem stop_only_clears_running (st : RPCState) :
    (stop st).1 = [] ∧
    (stop st).2.requests = st.requests ∧
    (stop st).2.requestId = st.requestId ∧
    (stop st).2.reqHandlers = st.reqHandlers ∧
    (stop st).2.notifHandlers = st.notifHandlers ∧
    (stop st).2.running = false :=
  ⟨rfl, rfl, rfl, rfl, rfl, rfl⟩

/-- Claim C8 (code_bug): once the stream reports end-of-input the
`start()` loop of `src/src/rpc.ts` does not exit — it skips the falsy
message and issues another read, forever, for every iteration count; it
exits only when `stop()` has cleared the running flag. -/
theorem start_loop_never_exits_on_stream_end :
    (∀ n : Nat, loopExitsOnEOF n = false) ∧
    startIterSrc false none = LoopOutcome.exit := by
  refine ⟨fun n => ?_, rfl⟩
  induction n with
  | zero => rfl
  | succ k ih => exact ih

/-- Counterexample for C9: at the failure payload `1` (and reply id `0`)
the two source variants write different error envelopes — the
`src/src/rpc.ts` one omits `data`, the `src/unnamed/part_001` one carries
`data: 1`. -/
theorem catch_variants_differ_on_payload_one :
    sentCatchSrc (JVal.num 0) (Payload.val (JVal.num 1)) ≠
      some (sentCatch001 (JVal.num 0) (Payload.val (JVal.num 1))) := by
  intro h
  have h2 : false = true :=
    congrArg
      (fun o => match o with
        | some j => jbeq j (sentCatch001 (JVal.num 0) (Payload.val (JVal.num 1)))
        | none => false) h
  exact Bool.noConfusion h2

/-- Claim C9 (corrected): the two variants are not behaviorally equal on
handler failure.  For every integer payload `n` and reply id, they agree
on the id, the code `-32603` and the message `"Internal error"`, but
differ on `data`: the `part_001` variant passes the payload through
(`data: n`) while the `src/src/rpc.ts` variant takes the payload's absent
`data` property, so its serialised reply has no `data` field. -/
theorem catch_variants_agree_except_data (n : Int) (idv : JVal) :
    catchReplySrc idv (Payload.val (JVal.num n)) =
      some (JVal.obj [("id", idv),
        ("error", JVal.obj [("code", JVal.num (-32603)),
          ("message", JVal.str "Internal error"),
          ("data", JVal.undefined)])]) ∧
    catchReply001 idv (Payload.val (JVal.num n)) =
      JVal.obj [("id", idv),
        ("error", JVal.obj [("code", JVal.num (-32603)),
          ("message", JVal.str "Internal error"),
          ("data", JVal.num n)])] ∧
    (sentCatchSrc idv (Payload.val (JVal.num n))).map errDataOf =
      some none ∧
    errDataOf (sentCatch001 idv (Payload.val (JVal.num n))) =
      some (JVal.num n) := by
  refine ⟨rfl, rfl, ?_, ?_⟩ <;> cases idv <;> rfl

end DenoJsonRpc
